import Mathlib

/-!
Verification of the sidecar process supervisor in
src/edge_frontend/src-tauri/src/lib.rs (todoforai/edge).

The Rust code is shallowly embedded: external effects (process spawning,
TCP probes, killing children, running external commands such as netstat,
taskkill, lsof and kill) are represented by explicit environment records
supplying each attempt with its outcome, and by effect traces listing what
the code did.  Machine integers are modelled as Nat; the only integer in
scope, the fixed port 9528, is far from every overflow boundary.
-/

/-- Fixed WebSocket port, lib.rs line 181: `const WEBSOCKET_PORT: u16 = 9528;`. -/
def WEBSOCKET_PORT : Nat := 9528

/-- Launch mode of the sidecar: the compiled binary variant
(`app.shell().sidecar("todoforai-edge-sidecar")`) or the interpreted Python
script variant (`python`/`python3 ws_sidecar.py`). -/
inductive LaunchMode
  | compiledBinary
  | interpretedScript
deriving DecidableEq, Repr

/-- Mode selection, lib.rs line 218:
`let use_python = (is_dev_mode && !force_production) || force_python;`. -/
def use_python (is_dev_mode force_python force_production : Bool) : Bool :=
  (is_dev_mode && !force_production) || force_python

/-- The launch mode the spawn section of `start_websocket_sidecar` acts on
(lib.rs lines 234 and 255): `use_python = true` selects the Python script,
otherwise the compiled sidecar binary is used. -/
def select_launch_mode (is_dev_mode force_python force_production : Bool) : LaunchMode :=
  if use_python is_dev_mode force_python force_production then
    LaunchMode.interpretedScript
  else
    LaunchMode.compiledBinary

/-- Boolean test that `pre` is a prefix of `l` (character lists). -/
def listIsPrefix : List Char → List Char → Bool
  | [], _ => true
  | _ :: _, [] => false
  | a :: as, b :: bs => a == b && listIsPrefix as bs

/-- Boolean test that `sub` occurs as a contiguous substring of `l`
(character lists). -/
def listHasSubstr (sub : List Char) : List Char → Bool
  | [] => sub.isEmpty
  | a :: t => listIsPrefix sub (a :: t) || listHasSubstr sub t

/-- Boolean substring test on strings, used to formalise the phrase
"the error message names X" as: the text X occurs inside the message. -/
def strContains (s sub : String) : Bool :=
  listHasSubstr sub.data s.data

/-- A string is a substring of itself appended after any prefix
(auxiliary for message lemmas). -/
theorem listIsPrefix_refl (l : List Char) : listIsPrefix l l = true := by
  induction l with
  | nil => rfl
  | cons a t ih => simp [listIsPrefix, ih]

theorem listHasSubstr_append (p s : List Char) :
    listHasSubstr s (p ++ s) = true := by
  induction p with
  | nil =>
    cases s with
    | nil => rfl
    | cons a t => simp [listHasSubstr, listIsPrefix_refl]
  | cons a t ih => simp [listHasSubstr, ih]

/-- The suffix of a concatenation is named by (contained in) the whole string. -/
theorem strContains_append_right (p s : String) :
    strContains (p ++ s) s = true := by
  have h : (p ++ s).data = p.data ++ s.data := String.data_append p s
  simp [strContains, h, listHasSubstr_append]

/-- Timeout message built at lib.rs line 177:
`format!("Timeout waiting for sidecar to be ready on port {} after {} seconds", port, timeout_seconds)`. -/
def timeoutMsg (port timeout_seconds : Nat) : String :=
  "Timeout waiting for sidecar to be ready on port " ++ toString port ++
    " after " ++ toString timeout_seconds ++ " seconds"

/-- Polling loop of `wait_for_sidecar_ready` (lib.rs lines 161-178).
The readiness probe `is_port_in_use` at iteration `i` is abstracted as
`ready i`; `fuel` counts how many probe iterations the wall-clock guard
`start_time.elapsed() < timeout` admits before it fails. -/
def wait_loop (port timeout_seconds : Nat) (ready : Nat → Bool) :
    Nat → Nat → Except String Unit
  | 0, _ => Except.error (timeoutMsg port timeout_seconds)
  | fuel + 1, i =>
    if ready i then Except.ok () else wait_loop port timeout_seconds ready fuel (i + 1)

/-- Readiness monitor `wait_for_sidecar_ready` (lib.rs lines 161-178):
repeatedly probe the port; succeed as soon as a probe succeeds, and fail
with `timeoutMsg` once the admitted probe iterations are exhausted. -/
def wait_for_sidecar_ready (port timeout_seconds : Nat) (ready : Nat → Bool)
    (polls : Nat) : Except String Unit :=
  wait_loop port timeout_seconds ready polls 0

/-- The one field of the Rust struct `WebSocketSidecar` (lib.rs lines 134-136):
`child: Option<CommandChild>`.  Children are identified by Nat ids. -/
structure WebSocketSidecar where
  child : Option Nat
deriving DecidableEq, Repr

/-- The shared slot `WebSocketState(Arc<Mutex<Option<WebSocketSidecar>>>)`
(lib.rs line 150). -/
abbrev SidecarSlot := Option WebSocketSidecar

/-- Environment of one `start_websocket_sidecar` call: the outcome of each
external interaction the call may perform, in source order.
`portInUse` is the `is_port_in_use(WEBSOCKET_PORT)` pre-check (line 198);
`pythonSpawn` is the Python spawn when Python is the selected mode
(lines 244-254); `sidecarCommand` is `app.shell().sidecar(..)` command
creation (line 260); `sidecarSpawn` is the compiled binary spawn
(lines 264-267); `pythonFallbackSpawn` is the fallback Python spawn
(lines 280-290); `ready`/`polls` drive the readiness wait (line 317). -/
structure StartEnv where
  portInUse : Bool
  is_dev_mode : Bool
  force_python : Bool
  force_production : Bool
  pythonSpawn : Except String Nat
  sidecarCommand : Except String Unit
  sidecarSpawn : Except String Nat
  pythonFallbackSpawn : Except String Nat
  ready : Nat → Bool
  polls : Nat

/-- Spawn section of `start_websocket_sidecar` (lib.rs lines 234-293),
including its error messages verbatim.  With `use_python` set, a Python
spawn failure is returned at once (line 254) with no fallback.  Otherwise
the compiled sidecar is tried: when command creation succeeds but the spawn
fails, the error is returned (line 267) with no fallback; only when command
creation itself fails is the Python fallback attempted (lines 269-291). -/
def spawn_attempt (env : StartEnv) : Except String Nat :=
  if use_python env.is_dev_mode env.force_python env.force_production then
    match env.pythonSpawn with
    | Except.ok c => Except.ok c
    | Except.error e => Except.error ("Failed to start Python script: " ++ e)
  else
    match env.sidecarCommand with
    | Except.ok _ =>
      match env.sidecarSpawn with
      | Except.ok c => Except.ok c
      | Except.error e => Except.error ("Failed to spawn sidecar: " ++ e)
    | Except.error _ =>
      match env.pythonFallbackSpawn with
      | Except.ok c => Except.ok c
      | Except.error e =>
        Except.error ("Failed to start Python script fallback: " ++ e)

deriving instance DecidableEq for Except

/-- Result of one `start_websocket_sidecar` call: the returned value, the
slot contents afterwards, and the list of OS child processes the call
spawned. -/
structure StartOutcome where
  result : Except String Nat
  slot : SidecarSlot
  spawned : List Nat
deriving DecidableEq, Repr

/-- `start_websocket_sidecar` (lib.rs lines 184-328) as a sequential state
transformer on the shared slot.  Control flow in source order: short-circuit
when the slot already holds a handle (lines 189-195); short-circuit when the
fixed port is already in use (lines 198-204); spawn (lines 234-293); await
readiness (line 317, ten seconds), returning the error and storing nothing
on timeout; otherwise store the handle (lines 320-324) and return the port. -/
def start_websocket_sidecar (slot : SidecarSlot) (env : StartEnv) : StartOutcome :=
  if slot.isSome then
    { result := Except.ok WEBSOCKET_PORT, slot := slot, spawned := [] }
  else if env.portInUse then
    { result := Except.ok WEBSOCKET_PORT, slot := slot, spawned := [] }
  else
    match spawn_attempt env with
    | Except.error e => { result := Except.error e, slot := slot, spawned := [] }
    | Except.ok child =>
      match wait_for_sidecar_ready WEBSOCKET_PORT 10 env.ready env.polls with
      | Except.error e =>
        { result := Except.error e, slot := slot, spawned := [child] }
      | Except.ok _ =>
        { result := Except.ok WEBSOCKET_PORT
          slot := some { child := some child }
          spawned := [child] }

/-- Platform split of the `#[cfg(target_os = "windows")]` /
`#[cfg(not(target_os = "windows"))]` blocks in `kill_process_on_port`
(lib.rs lines 340-380). -/
inductive Platform
  | windows
  | unixLike
deriving DecidableEq, Repr

/-- Environment of the port reaper: the outcome of the enumeration command
(`netstat -ano` on Windows, `lsof -t -i:PORT` elsewhere), given as the lines
of its standard output, or the error of running it. -/
structure ReaperEnv where
  netstatOutput : Except String (List String)
  lsofOutput : Except String (List String)

/-- Observable side effects of the stop path: `killChild` is
`CommandChild.kill()` on the managed child; `runCmd` is the execution of an
external command via `std::process::Command`. -/
inductive Effect
  | killChild (id : Nat)
  | runCmd (name : String) (args : List String)
deriving DecidableEq, Repr

/-- Rust `split_whitespace` restricted to spaces: split on spaces, dropping
empty parts (netstat columns are space-separated). -/
def splitWhitespace (s : String) : List String :=
  (s.splitOn " ").filter (fun w => w ≠ "")

/-- Pid extraction from the netstat output on Windows (lib.rs lines 349-358):
for each line containing ":PORT" and "LISTENING", the last whitespace-split
field is the pid to kill. -/
def windowsReapTargets (port : Nat) (lines : List String) : List String :=
  lines.filterMap (fun line =>
    if strContains line (":" ++ toString port) && strContains line "LISTENING" then
      (splitWhitespace line).getLast?
    else
      none)

/-- Nonempty trimmed pid lines of the lsof output on Unix-like systems
(lib.rs lines 370-378). -/
def unixReapTargets (pids : List String) : List String :=
  (pids.filter (fun pid => pid.trim ≠ "")).map (fun pid => pid.trim)

/-- `kill_process_on_port` (lib.rs lines 337-383).  On Windows the failure
to run netstat is returned as an error (line 346, `map_err` then `?`); each
matching pid gets a `taskkill /F /PID` whose outcome is ignored.  On
Unix-like systems the lsof outcome is only pattern-matched (line 369), so
every failure is swallowed and each pid gets a `kill -9` whose outcome is
ignored; the function then always returns success (line 382). -/
def kill_process_on_port (plat : Platform) (env : ReaperEnv) (port : Nat) :
    Except String Unit × List Effect :=
  match plat with
  | Platform.windows =>
    match env.netstatOutput with
    | Except.error e =>
      (Except.error ("Failed to run netstat: " ++ e),
        [Effect.runCmd "netstat" ["-ano"]])
    | Except.ok lines =>
      (Except.ok (),
        Effect.runCmd "netstat" ["-ano"] ::
          (windowsReapTargets port lines).map
            (fun pid => Effect.runCmd "taskkill" ["/F", "/PID", pid]))
  | Platform.unixLike =>
    match env.lsofOutput with
    | Except.error _ =>
      (Except.ok (), [Effect.runCmd "lsof" ["-t", "-i:" ++ toString port]])
    | Except.ok pids =>
      (Except.ok (),
        Effect.runCmd "lsof" ["-t", "-i:" ++ toString port] ::
          (unixReapTargets pids).map
            (fun pid => Effect.runCmd "kill" ["-9", pid]))

/-- `Drop for WebSocketSidecar` (lib.rs lines 139-147): take the child if
still present and send it a kill; the kill result is ignored
(`let _ = child.kill();`), so the trace does not depend on `killResult` and
no error can escape the destructor. -/
def WebSocketSidecar.drop (killResult : Except String Unit)
    (s : WebSocketSidecar) : List Effect :=
  match s.child with
  | some c =>
    match killResult with
    | _ => [Effect.killChild c]
  | none => []

/-- Managed-kill section of `stop_websocket_sidecar` (lib.rs lines 391-396):
take the child out of the handle and kill it (result ignored); the handle,
now holding no child, is then dropped at the end of the `if let` scope, so
`WebSocketSidecar.drop` runs on a childless handle. -/
def take_and_kill (killResult : Except String Unit) (s : WebSocketSidecar) :
    List Effect :=
  match s.child with
  | some c =>
    Effect.killChild c :: WebSocketSidecar.drop killResult { child := none }
  | none => WebSocketSidecar.drop killResult s

/-- `stop_websocket_sidecar` (lib.rs lines 386-403): take the slot contents
(leaving the slot empty in every case), kill the managed child if one was
held, then run `kill_process_on_port(WEBSOCKET_PORT)?`, whose result is the
result of the whole call (the `?` operator propagates its error). -/
def stop_websocket_sidecar (plat : Platform) (slot : SidecarSlot)
    (env : ReaperEnv) (killResult : Except String Unit) :
    Except String Unit × SidecarSlot × List Effect :=
  let managed : List Effect :=
    match slot with
    | some s => take_and_kill killResult s
    | none => []
  let reap := kill_process_on_port plat env WEBSOCKET_PORT
  (reap.1, none, managed ++ reap.2)

/-- Discriminator of the managed-child kill effect. -/
def isKillChild : Effect → Bool
  | Effect.killChild _ => true
  | Effect.runCmd _ _ => false

/-- Number of kill signals sent to managed children in a trace. -/
def killCount (l : List Effect) : Nat :=
  (l.filter isKillChild).length

/-- Per-request view of `start_websocket_sidecar` for reasoning about two
overlapping calls.  The shared mutex protects only the slot accesses
(lib.rs lines 189-195 and 320-324); each atomic step below corresponds to
one lock-protected critical section or one unlocked action:
pc 0 = slot check under the lock (lines 189-195), pc 1 = `is_port_in_use`
check (line 198), pc 2 = spawn (lines 234-293), pc 3 = readiness poll
(line 317), pc 4 = store the handle under the lock (lines 320-324),
pc 5 = returned. -/
structure TaskSt where
  pc : Nat
  child : Option Nat
deriving DecidableEq, Repr

/-- Shared state seen by overlapping start calls: the handle slot, whether
the fixed port currently accepts connections, and how many OS processes
have been spawned so far. -/
structure ConcState where
  slot : Option Nat
  listening : Bool
  spawned : Nat
deriving DecidableEq, Repr

/-- One atomic step of one start request (child id `cid` is the id the
request would give its spawned process).  This is the normal path of
lib.rs lines 184-328 in which the spawn itself succeeds. -/
def stepTask (cid : Nat) (s : ConcState) (t : TaskSt) : ConcState × TaskSt :=
  if t.pc = 0 then
    if s.slot.isSome then (s, { t with pc := 5 }) else (s, { t with pc := 1 })
  else if t.pc = 1 then
    if s.listening then (s, { t with pc := 5 }) else (s, { t with pc := 2 })
  else if t.pc = 2 then
    ({ s with spawned := s.spawned + 1 }, { t with pc := 3, child := some cid })
  else if t.pc = 3 then
    if s.listening then (s, { t with pc := 4 }) else (s, t)
  else if t.pc = 4 then
    ({ s with slot := t.child }, { t with pc := 5 })
  else (s, t)

/-- Scheduler events: a step of the first start request, a step of the
second start request, or the environment making the port accept connections
(a spawned sidecar coming up). -/
inductive Evt
  | t1
  | t2
  | portUp
deriving DecidableEq, Repr

/-- Combined state of two overlapping start requests. -/
structure SysState where
  shared : ConcState
  task1 : TaskSt
  task2 : TaskSt
deriving DecidableEq, Repr

/-- Interleaving semantics: each event advances one request by one atomic
step, or flips the port to accepting. -/
def stepSys (s : SysState) : Evt → SysState
  | Evt.t1 =>
    let r := stepTask 1 s.shared s.task1
    { shared := r.1, task1 := r.2, task2 := s.task2 }
  | Evt.t2 =>
    let r := stepTask 2 s.shared s.task2
    { shared := r.1, task1 := s.task1, task2 := r.2 }
  | Evt.portUp =>
    { s with shared := { s.shared with listening := true } }

/-- Initial state: empty slot, port closed, nothing spawned, both requests
at their slot check. -/
def initSys : SysState :=
  { shared := { slot := none, listening := false, spawned := 0 }
    task1 := { pc := 0, child := none }
    task2 := { pc := 0, child := none } }

/-- Execution of a schedule of interleaved events from the initial state. -/
def runSys (evts : List Evt) : SysState :=
  evts.foldl stepSys initSys

/-- Number of processes a single request has spawned (0 or 1). -/
def taskSpawnCount (t : TaskSt) : Nat :=
  if t.child.isSome then 1 else 0

/-- Invariant of the interleaving semantics: the global spawn count is the
sum of the per-request counts, and a request that has not yet passed its
spawn step holds no child. -/
def ConcInv (s : SysState) : Prop :=
  s.shared.spawned = taskSpawnCount s.task1 + taskSpawnCount s.task2 ∧
  (s.task1.pc ≤ 2 → s.task1.child = none) ∧
  (s.task2.pc ≤ 2 → s.task2.child = none)

theorem taskSpawnCount_le_one (t : TaskSt) : taskSpawnCount t ≤ 1 := by
  unfold taskSpawnCount
  split <;> omega

theorem stepSys_inv (s : SysState) (e : Evt) (h : ConcInv s) :
    ConcInv (stepSys s e) := by
  rcases s with ⟨⟨slot, listening, spawned⟩, ⟨pc1, c1⟩, ⟨pc2, c2⟩⟩
  rcases h with ⟨h1, h2, h3⟩
  cases e with
  | portUp => exact ⟨h1, h2, h3⟩
  | t1 =>
    simp only [ConcInv, stepSys, stepTask] at *
    split_ifs <;> simp_all [taskSpawnCount] <;> omega
  | t2 =>
    simp only [ConcInv, stepSys, stepTask] at *
    split_ifs <;> simp_all [taskSpawnCount] <;> omega

theorem runSys_inv (evts : List Evt) : ConcInv (runSys evts) := by
  have general : ∀ s : SysState, ConcInv s → ConcInv (evts.foldl stepSys s) := by
    induction evts with
    | nil => intro s h; exact h
    | cons e rest ih => intro s h; exact ih (stepSys s e) (stepSys_inv s e h)
  exact general initSys ⟨rfl, fun _ => rfl, fun _ => rfl⟩

/-- A trace all of whose effects are external commands contains no
managed-child kill. -/
theorem killCount_eq_zero (l : List Effect) (h : ∀ e ∈ l, isKillChild e = false) :
    killCount l = 0 := by
  induction l with
  | nil => rfl
  | cons a t ih =>
    have ha := h a (List.mem_cons_self a t)
    have ht : ∀ e ∈ t, isKillChild e = false :=
      fun e he => h e (List.mem_cons_of_mem a he)
    have hstep : killCount (a :: t) = killCount t := by
      simp [killCount, List.filter_cons, ha]
    rw [hstep]
    exact ih ht

theorem killCount_append (l1 l2 : List Effect) :
    killCount (l1 ++ l2) = killCount l1 + killCount l2 := by
  simp [killCount, List.filter_append]

/-- Every effect of the port reaper is the execution of an external command,
never a managed-child kill. -/
theorem reap_no_killChild (plat : Platform) (env : ReaperEnv) (port : Nat) :
    ∀ e ∈ (kill_process_on_port plat env port).2, isKillChild e = false := by
  intro e he
  cases plat with
  | windows =>
    cases h : env.netstatOutput with
    | error msg =>
      simp [kill_process_on_port, h] at he
      subst he
      rfl
    | ok lines =>
      simp [kill_process_on_port, h, List.mem_map] at he
      rcases he with he | ⟨pid, _, he⟩ <;> subst he <;> rfl
  | unixLike =>
    cases h : env.lsofOutput with
    | error msg =>
      simp [kill_process_on_port, h] at he
      subst he
      rfl
    | ok pids =>
      simp [kill_process_on_port, h, List.mem_map] at he
      rcases he with he | ⟨pid, _, he⟩ <;> subst he <;> rfl

/-- On Unix-like systems the stop call always returns success: the lsof
outcome is pattern-matched, every failure swallowed. -/
theorem stop_unixLike_ok (slot : SidecarSlot) (env : ReaperEnv)
    (r : Except String Unit) :
    (stop_websocket_sidecar Platform.unixLike slot env r).1 = Except.ok () := by
  cases h : env.lsofOutput <;>
    simp [stop_websocket_sidecar, kill_process_on_port, h]

/-- A readiness schedule on which no probe ever succeeds drives the wait
loop into the timeout error, for every admitted iteration count. -/
theorem wait_loop_never_ready (port ts : Nat) (ready : Nat → Bool)
    (h : ∀ i, ready i = false) :
    ∀ polls i0, wait_loop port ts ready polls i0 =
      Except.error (timeoutMsg port ts) := by
  intro polls
  induction polls with
  | zero => intro i0; rfl
  | succ n ih => intro i0; simp [wait_loop, h, ih]

/-- C8: for every combination of the development flag, the force-interpreted
flag and the force-production flag, the selected launch mode is
`interpretedScript` exactly when (development holds and force-production is
unset) or force-interpreted is set, and `compiledBinary` otherwise. -/
theorem c8_mode_selection :
    ∀ d fi fp : Bool,
      (select_launch_mode d fi fp = LaunchMode.interpretedScript ↔
        ((d = true ∧ fp = false) ∨ fi = true)) ∧
      (¬ ((d = true ∧ fp = false) ∨ fi = true) →
        select_launch_mode d fi fp = LaunchMode.compiledBinary) := by
  decide

/-- Environment of the C1 scenario: production mode, sidecar command
creation fails, the Python fallback spawn also fails. -/
def c1Env : StartEnv :=
  { portInUse := false
    is_dev_mode := false
    force_python := false
    force_production := false
    pythonSpawn := Except.error "unused"
    sidecarCommand := Except.error "sidecar binary missing"
    sidecarSpawn := Except.error "unused"
    pythonFallbackSpawn := Except.error "python interpreter missing"
    ready := fun _ => true
    polls := 1 }

/-- C1, counterexample: when both variants fail (primary cause
"sidecar binary missing", fallback cause "python interpreter missing"),
the returned error message carries the fallback cause but does NOT name
the primary cause, contradicting the claim that it names both. -/
theorem c1_counterexample :
    (start_websocket_sidecar none c1Env).result =
      Except.error "Failed to start Python script fallback: python interpreter missing" ∧
    strContains "Failed to start Python script fallback: python interpreter missing"
      "python interpreter missing" = true ∧
    strContains "Failed to start Python script fallback: python interpreter missing"
      "sidecar binary missing" = false := by
  refine ⟨rfl, by decide, by decide⟩

/-- C1, amended: when the primary is the compiled binary and creating its
command fails with cause e1, and the Python fallback spawn fails with cause
e2, start returns an error that names only the fallback cause e2 (the
primary cause e1 is logged, not carried in the returned error). -/
theorem c1_both_fail_error (env : StartEnv) (e1 e2 : String)
    (hmode : use_python env.is_dev_mode env.force_python env.force_production = false)
    (hport : env.portInUse = false)
    (hcmd : env.sidecarCommand = Except.error e1)
    (hfb : env.pythonFallbackSpawn = Except.error e2) :
    (start_websocket_sidecar none env).result =
      Except.error ("Failed to start Python script fallback: " ++ e2) ∧
    strContains ("Failed to start Python script fallback: " ++ e2) e2 = true := by
  constructor
  · simp [start_websocket_sidecar, hport, spawn_attempt, hmode, hcmd, hfb]
  · exact strContains_append_right _ _

/-- C1, witness for `c1_both_fail_error` at the concrete environment. -/
theorem c1_both_fail_error_witness :
    (start_websocket_sidecar none c1Env).result =
      Except.error ("Failed to start Python script fallback: " ++ "python interpreter missing") ∧
    strContains ("Failed to start Python script fallback: " ++ "python interpreter missing")
      "python interpreter missing" = true :=
  c1_both_fail_error c1Env "sidecar binary missing" "python interpreter missing"
    rfl rfl rfl rfl

/-- Environment of the C2 counterexample: development mode selects the
Python script as primary; the Python spawn fails while the compiled binary
variant would have spawned. -/
def c2Env : StartEnv :=
  { portInUse := false
    is_dev_mode := true
    force_python := false
    force_production := false
    pythonSpawn := Except.error "python interpreter missing"
    sidecarCommand := Except.ok ()
    sidecarSpawn := Except.ok 7
    pythonFallbackSpawn := Except.ok 8
    ready := fun _ => true
    polls := 1 }

/-- C2, counterexample: the selected primary variant (Python, in
development mode) fails to spawn while the alternate variant could spawn
(its command creation and spawn both succeed), yet start returns the
primary error and spawns nothing instead of succeeding via the alternate. -/
theorem c2_counterexample :
    (start_websocket_sidecar none c2Env).result =
      Except.error "Failed to start Python script: python interpreter missing" ∧
    (start_websocket_sidecar none c2Env).spawned = [] ∧
    c2Env.sidecarCommand = Except.ok () ∧
    c2Env.sidecarSpawn = Except.ok 7 :=
  ⟨rfl, rfl, rfl, rfl⟩

/-- C2, amended: the only fallback in the code runs when the primary is the
compiled binary and creating its command fails; the Python fallback is then
attempted once, and if it spawns and the port becomes ready, start succeeds
with the fixed port and stores a handle holding the fallback child (the
handle records no launch mode, it holds only the child). -/
theorem c2_fallback_success (env : StartEnv) (e1 : String) (c : Nat)
    (hmode : use_python env.is_dev_mode env.force_python env.force_production = false)
    (hport : env.portInUse = false)
    (hcmd : env.sidecarCommand = Except.error e1)
    (hfb : env.pythonFallbackSpawn = Except.ok c)
    (hready : wait_for_sidecar_ready WEBSOCKET_PORT 10 env.ready env.polls =
      Except.ok ()) :
    start_websocket_sidecar none env =
      { result := Except.ok WEBSOCKET_PORT
        slot := some { child := some c }
        spawned := [c] } := by
  simp [start_websocket_sidecar, hport, spawn_attempt, hmode, hcmd, hfb, hready]

/-- Environment of the C2 witness: production mode, sidecar command
creation fails, the Python fallback spawns child 8, the port comes up at
the first probe. -/
def c2WEnv : StartEnv :=
  { portInUse := false
    is_dev_mode := false
    force_python := false
    force_production := false
    pythonSpawn := Except.error "unused"
    sidecarCommand := Except.error "sidecar binary missing"
    sidecarSpawn := Except.error "unused"
    pythonFallbackSpawn := Except.ok 8
    ready := fun _ => true
    polls := 1 }

/-- C2, witness for `c2_fallback_success` at the concrete environment. -/
theorem c2_fallback_success_witness :
    start_websocket_sidecar none c2WEnv =
      { result := Except.ok WEBSOCKET_PORT
        slot := some { child := some 8 }
        spawned := [8] } :=
  c2_fallback_success c2WEnv "sidecar binary missing" 8 rfl rfl rfl rfl rfl

/-- Reaper environment of the C3 counterexample: on Windows the netstat
enumeration itself fails to run. -/
def c3Env : ReaperEnv :=
  { netstatOutput := Except.error "program not found"
    lsofOutput := Except.ok [] }

/-- C3, counterexample: on Windows, a failure to run the netstat
enumeration is propagated out of `stop_websocket_sidecar` as an error
(the `?` on `kill_process_on_port`), contradicting the claim that stop
returns success in every state on every platform. -/
theorem c3_counterexample :
    (stop_websocket_sidecar Platform.windows none c3Env (Except.ok ())).1 =
      Except.error "Failed to run netstat: program not found" := rfl

/-- C3, amended: stop always returns success on Unix-like platforms, in
every state and for every kill and lsof outcome; on Windows it returns
success whenever the netstat enumeration can be executed (individual
taskkill or kill failures are never propagated on either platform), but a
failure to execute netstat itself is returned as an error. -/
theorem c3_stop_best_effort :
    (∀ (slot : SidecarSlot) (env : ReaperEnv) (r : Except String Unit),
      (stop_websocket_sidecar Platform.unixLike slot env r).1 = Except.ok ()) ∧
    (∀ (slot : SidecarSlot) (lines : List String)
        (ls : Except String (List String)) (r : Except String Unit),
      (stop_websocket_sidecar Platform.windows slot
        { netstatOutput := Except.ok lines, lsofOutput := ls } r).1 =
        Except.ok ()) := by
  constructor
  · exact stop_unixLike_ok
  · intro slot lines ls r
    rfl

/-- Reaper environment of the C4 counterexample: both enumerations run and
report no listeners. -/
def c4Env : ReaperEnv :=
  { netstatOutput := Except.ok []
    lsofOutput := Except.ok [] }

/-- C4, counterexample: a stop call in the Idle state (no handle held)
still runs an external command, the lsof port enumeration (netstat on
Windows), so it is not free of side effects as the claim states. -/
theorem c4_counterexample :
    (stop_websocket_sidecar Platform.unixLike none c4Env (Except.ok ())).2.2 =
      [Effect.runCmd "lsof" ["-t", "-i:9528"]] ∧
    (stop_websocket_sidecar Platform.unixLike none c4Env (Except.ok ())).2.2 ≠
      [] := by
  refine ⟨rfl, by decide⟩

/-- C4, amended: a stop call while no handle is held kills no managed
child, leaves the slot empty, and returns success on Unix-like platforms
(and on Windows whenever netstat runs) — but it always invokes the port
reaper, which executes external enumeration commands and may terminate
processes listening on the fixed port. -/
theorem c4_stop_idle (plat : Platform) (env : ReaperEnv)
    (r : Except String Unit) :
    killCount (stop_websocket_sidecar plat none env r).2.2 = 0 ∧
    (stop_websocket_sidecar plat none env r).2.1 = none ∧
    (stop_websocket_sidecar Platform.unixLike none env r).1 = Except.ok () := by
  refine ⟨?_, rfl, stop_unixLike_ok none env r⟩
  have htrace : (stop_websocket_sidecar plat none env r).2.2 =
      (kill_process_on_port plat env WEBSOCKET_PORT).2 := by
    simp [stop_websocket_sidecar]
  rw [htrace]
  exact killCount_eq_zero _ (reap_no_killChild plat env WEBSOCKET_PORT)

/-- Environment of the C5 counterexample: the fixed port is already
occupied by a foreign process at both calls. -/
def c5Env : StartEnv :=
  { portInUse := true
    is_dev_mode := true
    force_python := false
    force_production := false
    pythonSpawn := Except.ok 1
    sidecarCommand := Except.ok ()
    sidecarSpawn := Except.ok 2
    pythonFallbackSpawn := Except.ok 3
    ready := fun _ => true
    polls := 1 }

/-- C5, counterexample: with the fixed port already occupied by a foreign
process, two sequential start calls with no intervening stop both succeed
with the fixed port, yet ZERO processes are spawned across the two calls,
contradicting the claimed count of exactly one. -/
theorem c5_counterexample :
    (start_websocket_sidecar none c5Env).result = Except.ok WEBSOCKET_PORT ∧
    (start_websocket_sidecar (start_websocket_sidecar none c5Env).slot
      c5Env).result = Except.ok WEBSOCKET_PORT ∧
    ((start_websocket_sidecar none c5Env).spawned ++
      (start_websocket_sidecar (start_websocket_sidecar none c5Env).slot
        c5Env).spawned).length = 0 :=
  ⟨rfl, rfl, rfl⟩

/-- C5, amended: for sequential calls with no intervening stop, if the
first call succeeds by actually spawning a process (rather than
short-circuiting on an existing handle or an occupied port), then it
returned the fixed port 9528, the second call succeeds with the same port
while spawning nothing and leaving the slot unchanged, and exactly one
process is spawned across the two calls. -/
theorem c5_idempotent (env1 env2 : StartEnv) (p : Nat)
    (h1 : (start_websocket_sidecar none env1).result = Except.ok p)
    (h2 : (start_websocket_sidecar none env1).spawned ≠ []) :
    p = WEBSOCKET_PORT ∧
    start_websocket_sidecar (start_websocket_sidecar none env1).slot env2 =
      { result := Except.ok WEBSOCKET_PORT
        slot := (start_websocket_sidecar none env1).slot
        spawned := [] } ∧
    ((start_websocket_sidecar none env1).spawned ++
      (start_websocket_sidecar (start_websocket_sidecar none env1).slot
        env2).spawned).length = 1 := by
  by_cases hp : env1.portInUse
  · exfalso
    apply h2
    simp [start_websocket_sidecar, hp]
  · cases hs : spawn_attempt env1 with
    | error e =>
      exfalso
      apply h2
      simp [start_websocket_sidecar, hp, hs]
    | ok c =>
      cases hw : wait_for_sidecar_ready WEBSOCKET_PORT 10 env1.ready env1.polls with
      | error e =>
        exfalso
        have : (start_websocket_sidecar none env1).result = Except.error e := by
          simp [start_websocket_sidecar, hp, hs, hw]
        rw [this] at h1
        exact Except.noConfusion h1
      | ok u =>
        have hrun : start_websocket_sidecar none env1 =
            { result := Except.ok WEBSOCKET_PORT
              slot := some { child := some c }
              spawned := [c] } := by
          simp [start_websocket_sidecar, hp, hs, hw]
        rw [hrun] at h1
        refine ⟨by injection h1 with h; exact h.symm, ?_, ?_⟩
        · rw [hrun]
          rfl
        · rw [hrun]
          rfl

/-- Environment of the C5 witness: a fresh successful start that spawns
child 1 and sees the port come up at the first probe. -/
def c5WEnv : StartEnv :=
  { portInUse := false
    is_dev_mode := true
    force_python := false
    force_production := false
    pythonSpawn := Except.ok 1
    sidecarCommand := Except.ok ()
    sidecarSpawn := Except.ok 2
    pythonFallbackSpawn := Except.ok 3
    ready := fun _ => true
    polls := 1 }

/-- C5, witness for `c5_idempotent` at the concrete environment. -/
theorem c5_idempotent_witness :
    WEBSOCKET_PORT = WEBSOCKET_PORT ∧
    start_websocket_sidecar (start_websocket_sidecar none c5WEnv).slot c5WEnv =
      { result := Except.ok WEBSOCKET_PORT
        slot := (start_websocket_sidecar none c5WEnv).slot
        spawned := [] } ∧
    ((start_websocket_sidecar none c5WEnv).spawned ++
      (start_websocket_sidecar (start_websocket_sidecar none c5WEnv).slot
        c5WEnv).spawned).length = 1 :=
  c5_idempotent c5WEnv c5WEnv WEBSOCKET_PORT rfl (by decide)

/-- Environment of the C6 witness: the fixed port is already occupied. -/
def c6Env : StartEnv :=
  { portInUse := true
    is_dev_mode := false
    force_python := false
    force_production := false
    pythonSpawn := Except.ok 1
    sidecarCommand := Except.ok ()
    sidecarSpawn := Except.ok 2
    pythonFallbackSpawn := Except.ok 3
    ready := fun _ => true
    polls := 1 }

/-- C6: a start call made while no handle is held and the fixed port is
already accepting connections returns success with the fixed port, spawns
no process, and leaves the slot empty; the occupied port is not treated as
an error. -/
theorem c6_port_occupied_short_circuit (env : StartEnv)
    (h : env.portInUse = true) :
    start_websocket_sidecar none env =
      { result := Except.ok WEBSOCKET_PORT, slot := none, spawned := [] } := by
  simp [start_websocket_sidecar, h]

/-- C6, witness for `c6_port_occupied_short_circuit` at the concrete
environment. -/
theorem c6_port_occupied_witness :
    start_websocket_sidecar none c6Env =
      { result := Except.ok WEBSOCKET_PORT, slot := none, spawned := [] } :=
  c6_port_occupied_short_circuit c6Env rfl

/-- C7: when a start call spawns a child (no handle held, port initially
free, the spawn section succeeds) but no readiness probe ever succeeds, the
call returns the timeout error, which names the port and the timeout
duration, and no handle is stored: the slot stays empty. -/
theorem c7_readiness_timeout (env : StartEnv) (c : Nat)
    (hport : env.portInUse = false)
    (hspawn : spawn_attempt env = Except.ok c)
    (hready : ∀ i, env.ready i = false) :
    start_websocket_sidecar none env =
      { result := Except.error (timeoutMsg WEBSOCKET_PORT 10)
        slot := none
        spawned := [c] } ∧
    strContains (timeoutMsg WEBSOCKET_PORT 10) (toString WEBSOCKET_PORT) = true ∧
    strContains (timeoutMsg WEBSOCKET_PORT 10) "10 seconds" = true := by
  refine ⟨?_, by decide, by decide⟩
  have hw : wait_for_sidecar_ready WEBSOCKET_PORT 10 env.ready env.polls =
      Except.error (timeoutMsg WEBSOCKET_PORT 10) :=
    wait_loop_never_ready WEBSOCKET_PORT 10 env.ready hready env.polls 0
  simp [start_websocket_sidecar, hport, hspawn, hw]

/-- Environment of the C7 witness: development mode, Python spawns child 1,
no probe ever succeeds. -/
def c7Env : StartEnv :=
  { portInUse := false
    is_dev_mode := true
    force_python := false
    force_production := false
    pythonSpawn := Except.ok 1
    sidecarCommand := Except.ok ()
    sidecarSpawn := Except.ok 2
    pythonFallbackSpawn := Except.ok 3
    ready := fun _ => false
    polls := 3 }

/-- C7, witness for `c7_readiness_timeout` at the concrete environment. -/
theorem c7_readiness_timeout_witness :
    start_websocket_sidecar none c7Env =
      { result := Except.error (timeoutMsg WEBSOCKET_PORT 10)
        slot := none
        spawned := [1] } ∧
    strContains (timeoutMsg WEBSOCKET_PORT 10) (toString WEBSOCKET_PORT) = true ∧
    strContains (timeoutMsg WEBSOCKET_PORT 10) "10 seconds" = true :=
  c7_readiness_timeout c7Env 1 rfl rfl (fun _ => rfl)

/-- C9: whenever the object owning a live handle (child present) is torn
down — by the destructor alone (abnormal unwind or registry teardown) or by
the explicit stop path (kill, then destructor on the emptied handle) — the
owned child receives exactly one kill signal, for every outcome of the kill
and of the reaper, and the kill outcome cannot change the teardown trace. -/
theorem c9_kill_exactly_once (r : Except String Unit) (c : Nat)
    (s : WebSocketSidecar) (plat : Platform) (env : ReaperEnv)
    (h : s.child = some c) :
    WebSocketSidecar.drop r s = [Effect.killChild c] ∧
    killCount (WebSocketSidecar.drop r s) = 1 ∧
    killCount (take_and_kill r s) = 1 ∧
    killCount (stop_websocket_sidecar plat (some s) env r).2.2 = 1 ∧
    WebSocketSidecar.drop (Except.error "kill failed") s =
      WebSocketSidecar.drop (Except.ok ()) s := by
  have hdrop : WebSocketSidecar.drop r s = [Effect.killChild c] := by
    simp [WebSocketSidecar.drop, h]
  have htak : take_and_kill r s = [Effect.killChild c] := by
    simp [take_and_kill, h, WebSocketSidecar.drop]
  refine ⟨hdrop, by rw [hdrop]; rfl, by rw [htak]; rfl, ?_, ?_⟩
  · have htrace : (stop_websocket_sidecar plat (some s) env r).2.2 =
        take_and_kill r s ++ (kill_process_on_port plat env WEBSOCKET_PORT).2 := by
      simp [stop_websocket_sidecar]
    rw [htrace, killCount_append, htak,
      killCount_eq_zero _ (reap_no_killChild plat env WEBSOCKET_PORT)]
    rfl
  · simp [WebSocketSidecar.drop, h]

/-- C9, witness for `c9_kill_exactly_once` at a concrete live handle. -/
theorem c9_kill_exactly_once_witness :
    WebSocketSidecar.drop (Except.ok ()) { child := some 5 } =
      [Effect.killChild 5] ∧
    killCount (WebSocketSidecar.drop (Except.ok ()) { child := some 5 }) = 1 ∧
    killCount (take_and_kill (Except.ok ()) { child := some 5 }) = 1 ∧
    killCount (stop_websocket_sidecar Platform.unixLike
      (some { child := some 5 }) c4Env (Except.ok ())).2.2 = 1 ∧
    WebSocketSidecar.drop (Except.error "kill failed") { child := some 5 } =
      WebSocketSidecar.drop (Except.ok ()) { child := some 5 } :=
  c9_kill_exactly_once (Except.ok ()) 5 { child := some 5 }
    Platform.unixLike c4Env rfl

/-- Schedule of the C10 counterexample: both requests pass their slot and
port checks and spawn before either stores its handle; the port then comes
up and both requests finish. -/
def c10Schedule : List Evt :=
  [Evt.t1, Evt.t1, Evt.t1, Evt.t2, Evt.t2, Evt.t2, Evt.portUp,
    Evt.t1, Evt.t1, Evt.t2, Evt.t2]

/-- C10, counterexample: an interleaving of two overlapping start requests
in which the second begins while the first is between its port check and
its handle store.  Both requests run to completion and TWO processes are
spawned, contradicting the claim that a start beginning while another is in
progress never spawns a second process. -/
theorem c10_counterexample :
    (runSys c10Schedule).shared.spawned = 2 ∧
    (runSys c10Schedule).task1.pc = 5 ∧
    (runSys c10Schedule).task2.pc = 5 := by
  decide

/-- C10, amended: across every interleaving of two overlapping start
requests, each request spawns at most one process — the global spawn count
equals the sum of the two per-request counts and never exceeds two — but at
most ONE process in total is not guaranteed: a request short-circuits only
if it observes a stored handle at its slot check or an accepting port at
its port check. -/
theorem c10_spawn_bound (evts : List Evt) :
    (runSys evts).shared.spawned =
      taskSpawnCount (runSys evts).task1 + taskSpawnCount (runSys evts).task2 ∧
    (runSys evts).shared.spawned ≤ 2 := by
  obtain ⟨h1, -, -⟩ := runSys_inv evts
  refine ⟨h1, ?_⟩
  have b1 := taskSpawnCount_le_one (runSys evts).task1
  have b2 := taskSpawnCount_le_one (runSys evts).task2
  omega
